import Mathlib

/-
Verification development for the WCS raster downloader pipeline
(wcs_downloader.py) and its earlier notebook variant (sjekker_features.py).

The per-polygon job pipeline is embedded as a pure function of the row data,
the CLI parameters, and an environment record that fixes the outcome of each
external interaction (filesystem existence check, coverage request, masking,
final write).  Effects are tracked in an explicit trace (network calls,
temporary-file lifecycle, artifacts created).  Python floats are modelled as
rationals extended with an explicit NaN; Python int() on a float is modelled
as truncation toward zero.
-/

/-- Python float restricted to the cases the code distinguishes: an ordinary
finite value (modelled as a rational) or NaN, which math.isnan detects. -/
inductive PyFloat where
  | nan : PyFloat
  | num (q : ℚ) : PyFloat
deriving DecidableEq

/-- math.isnan on a modelled Python float. -/
def PyFloat.isnan : PyFloat → Bool
  | .nan => true
  | .num _ => false

/-- Numeric value of a float that is known not to be NaN (NaN mapped to 0;
the pipeline only reads this after the NaN guard has passed). -/
def PyFloat.toRat : PyFloat → ℚ
  | .nan => 0
  | .num q => q

/-- Python int() applied to a float value: truncation toward zero. -/
def pyTrunc (q : ℚ) : ℤ := if q < 0 then -⌊-q⌋ else ⌊q⌋

/-- Pixel width computed by download_single_polygon, wcs_downloader.py line
133: width = max(1, int((row.maxx - row.minx) / resolution)). -/
def plannedWidth (minx maxx resolution : ℚ) : ℤ :=
  max 1 (pyTrunc ((maxx - minx) / resolution))

/-- Pixel height computed by download_single_polygon, wcs_downloader.py line
134: height = max(1, int((row.maxy - row.miny) / resolution)). -/
def plannedHeight (miny maxy resolution : ℚ) : ℤ :=
  max 1 (pyTrunc ((maxy - miny) / resolution))

/-- Pixel width computed by the notebook variant, sjekker_features.py line
67: width = max(1, int(row.maxx) - (row.minx)).  Note the parenthesis
placement: int() is applied to maxx alone, and the result is a float. -/
def notebookWidth (minx maxx : ℚ) : ℚ := max 1 ((pyTrunc maxx : ℚ) - minx)

/-- Pixel height computed by the notebook variant, sjekker_features.py line
68: height = max(1, int(row.maxy) - (row.miny)). -/
def notebookHeight (miny maxy : ℚ) : ℚ := max 1 ((pyTrunc maxy : ℚ) - miny)

/-- Deterministic output file name, wcs_downloader.py line 110:
output_folder / f"D_{resolution}m_{index}.tif". -/
def outputFileName (resolution : ℚ) (index : ℤ) : String :=
  "D_" ++ toString resolution ++ "m_" ++ toString index ++ ".tif"

/-- Message raised at wcs_downloader.py line 120 for NaN bounds. -/
def invalidGeometryMsg (index : ℤ) : String :=
  "Invalid geometry bounds (NaN values) for polygon " ++ toString index

/-- Message raised at wcs_downloader.py lines 138-142 for oversized requests. -/
def tooLargeMsg (width height max_pixels : ℤ) : String :=
  "Requested raster too large: " ++ toString width ++ "x" ++ toString height ++
    " pixels. Max is " ++ toString max_pixels ++ "x" ++ toString max_pixels ++
    ". Consider using a coarser resolution or increasing --max-pixels."

/-- Unicode replacement character U+FFFD produced by permissive decoding. -/
def replacementChar : Char := Char.ofNat 0xFFFD

/-- Tests for a UTF-8 continuation byte (0x80-0xBF). -/
def isUtf8Cont (b : ℕ) : Bool := 0x80 ≤ b && b < 0xC0

/-- Valid second byte after a three-byte leader (excludes overlong and
surrogate encodings). -/
def utf8SecondOk3 (b c1 : ℕ) : Bool :=
  if b = 0xE0 then 0xA0 ≤ c1 && c1 < 0xC0
  else if b = 0xED then 0x80 ≤ c1 && c1 < 0xA0
  else isUtf8Cont c1

/-- Valid second byte after a four-byte leader (excludes overlong encodings
and code points beyond U+10FFFF). -/
def utf8SecondOk4 (b c1 : ℕ) : Bool :=
  if b = 0xF0 then 0x90 ≤ c1 && c1 < 0xC0
  else if b = 0xF4 then 0x80 ≤ c1 && c1 < 0x90
  else isUtf8Cont c1

/-- Fuel-indexed permissive UTF-8 decoder: well-formed sequences decode to
their code point, malformed bytes become U+FFFD and decoding continues.
Models the external codec bytes.decode with replacement on errors (the exact
replacement count at a truncated tail is abstracted to one). -/
def decodeUtf8Aux : ℕ → List ℕ → List Char
  | 0, _ => []
  | _ + 1, [] => []
  | fuel + 1, b :: rest =>
    if b < 0x80 then Char.ofNat b :: decodeUtf8Aux fuel rest
    else if 0xC2 ≤ b && b < 0xE0 then
      match rest with
      | c1 :: rest2 =>
        if isUtf8Cont c1 then
          Char.ofNat ((b - 0xC0) * 0x40 + (c1 - 0x80)) :: decodeUtf8Aux fuel rest2
        else replacementChar :: decodeUtf8Aux fuel rest
      | [] => [replacementChar]
    else if 0xE0 ≤ b && b < 0xF0 then
      match rest with
      | c1 :: c2 :: rest2 =>
        if utf8SecondOk3 b c1 && isUtf8Cont c2 then
          Char.ofNat ((b - 0xE0) * 0x1000 + (c1 - 0x80) * 0x40 + (c2 - 0x80)) ::
            decodeUtf8Aux fuel rest2
        else replacementChar :: decodeUtf8Aux fuel rest
      | _ => [replacementChar]
    else if 0xF0 ≤ b && b < 0xF5 then
      match rest with
      | c1 :: c2 :: c3 :: rest2 =>
        if utf8SecondOk4 b c1 && isUtf8Cont c2 && isUtf8Cont c3 then
          Char.ofNat ((b - 0xF0) * 0x40000 + (c1 - 0x80) * 0x1000 +
              (c2 - 0x80) * 0x40 + (c3 - 0x80)) :: decodeUtf8Aux fuel rest2
        else replacementChar :: decodeUtf8Aux fuel rest
      | _ => [replacementChar]
    else replacementChar :: decodeUtf8Aux fuel rest

/-- Bytes decoded permissively to text, as in downloaded_data.decode at
wcs_downloader.py line 158. -/
def decodeUtf8Replace (bs : List ℕ) : String := String.mk (decodeUtf8Aux bs.length bs)

/-- Message raised at wcs_downloader.py line 159 for a service error body:
the first 500 bytes of the payload, decoded permissively. -/
def serviceErrorMsg (preview : List ℕ) : String :=
  "WCS returned error response: " ++ decodeUtf8Replace preview

/-- WCS session created by WebCoverageService(wcs_url, version="1.0.0"). -/
structure WcsConnection where
  url : String
  version : String
deriving DecidableEq

/-- Thread-local connection cache, wcs_downloader.py lines 75-79: the state
is the thread's cached session (None before first use).  Returns the session
handed to the caller together with the updated cache. -/
def get_wcs_connection (state : Option WcsConnection) (wcs_url : String) :
    WcsConnection × Option WcsConnection :=
  match state with
  | some c => (c, some c)
  | none => (⟨wcs_url, "1.0.0"⟩, some ⟨wcs_url, "1.0.0"⟩)

/-- Row of the bounds frame as consumed by download_single_polygon:
row.Index plus minx, miny, maxx, maxy. -/
structure BoundsRow where
  idx : ℤ
  minx : PyFloat
  miny : PyFloat
  maxx : PyFloat
  maxy : PyFloat
deriving DecidableEq

/-- Environment fixing the outcome of every external interaction of one job:
whether the output file already exists, whether the coverage request raises
(carrying the exception class name and message), the response body bytes,
and whether the masking step or the final save raises. -/
structure WcsEnv where
  outputExists : Bool
  transport : Option (String × String)
  body : List ℕ
  maskFail : Option (String × String)
  saveFail : Option (String × String)
deriving DecidableEq

/-- Mirror of the DownloadResult dataclass, wcs_downloader.py lines 50-58. -/
structure DownloadResult where
  index : ℤ
  success : Bool
  skipped : Bool
  error_type : Option String
  error_message : Option String
deriving DecidableEq

/-- Observable effects of one job: coverage requests issued, lifecycle of the
temporary staging file, output artifacts created, the connection cache after
the job, and whether the post-success throttle slept. -/
structure JobTrace where
  networkCalls : ℕ
  tempCreated : Bool
  tempDeleted : Bool
  maskingAttempted : Bool
  created : List String
  connAfter : Option WcsConnection
  slept : Bool
deriving DecidableEq

/-- Embedding of download_single_polygon, wcs_downloader.py lines 82-195:
skip check, NaN guard, connection fetch, pixel planning, size guard,
coverage request, error-body detection, temporary staging with guaranteed
unlink, masking, save, throttle; every raised condition is converted to a
failed result carrying the exception class name and message. -/
def download_single_polygon (row : BoundsRow) (wcs_url : String)
    (sleep_duration resolution : ℚ) (max_pixels : ℤ)
    (conn : Option WcsConnection) (env : WcsEnv) : DownloadResult × JobTrace :=
  if env.outputExists then
    (⟨row.idx, true, true, none, none⟩, ⟨0, false, false, false, [], conn, false⟩)
  else if row.minx.isnan || row.miny.isnan || row.maxx.isnan || row.maxy.isnan then
    (⟨row.idx, false, false, some ("ValueError"), some (invalidGeometryMsg row.idx)⟩,
      ⟨0, false, false, false, [], conn, false⟩)
  else
    let wcsPair := get_wcs_connection conn wcs_url
    let width := plannedWidth row.minx.toRat row.maxx.toRat resolution
    let height := plannedHeight row.miny.toRat row.maxy.toRat resolution
    if max_pixels < width ∨ max_pixels < height then
      (⟨row.idx, false, false, some ("ValueError"), some (tooLargeMsg width height max_pixels)⟩,
        ⟨0, false, false, false, [], wcsPair.2, false⟩)
    else
      match env.transport with
      | some tm =>
        (⟨row.idx, false, false, some tm.1, some tm.2⟩,
          ⟨1, false, false, false, [], wcsPair.2, false⟩)
      | none =>
        if List.isPrefixOf [60] env.body || List.isPrefixOf [60, 63] env.body then
          (⟨row.idx, false, false, some ("ValueError"),
              some (serviceErrorMsg (env.body.take 500))⟩,
            ⟨1, false, false, false, [], wcsPair.2, false⟩)
        else
          match env.maskFail with
          | some tm =>
            (⟨row.idx, false, false, some tm.1, some tm.2⟩,
              ⟨1, true, true, true, [], wcsPair.2, false⟩)
          | none =>
            match env.saveFail with
            | some tm =>
              (⟨row.idx, false, false, some tm.1, some tm.2⟩,
                ⟨1, true, true, true, [], wcsPair.2, false⟩)
            | none =>
              (⟨row.idx, true, false, none, none⟩,
                ⟨1, true, true, true, [outputFileName resolution row.idx], wcsPair.2,
                  decide (0 < sleep_duration)⟩)

/-- Mirror of the FailedPolygon dataclass, wcs_downloader.py lines 61-72
(the wall-clock timestamp is supplied as a parameter). -/
structure FailedPolygon where
  index : ℤ
  minx : PyFloat
  miny : PyFloat
  maxx : PyFloat
  maxy : PyFloat
  error_type : String
  error_message : String
  timestamp : String
deriving DecidableEq

/-- Python truthiness fallback x or fallback on an optional string: both
None and the empty string fall back. -/
def pyOr (s : Option String) (fallback : String) : String :=
  match s with
  | none => fallback
  | some v => if v = "" then fallback else v

/-- FailedPolygon construction in the aggregation loop, wcs_downloader.py
lines 296-306. -/
def mkFailedPolygon (r : DownloadResult) (row : BoundsRow) (ts : String) : FailedPolygon :=
  ⟨r.index, row.minx, row.miny, row.maxx, row.maxy,
    pyOr r.error_type ("Unknown"), pyOr r.error_message ("Unknown error"), ts⟩

/-- Mutable aggregation state of process_polygons, wcs_downloader.py lines
252-255: the three counters and the failure list. -/
structure RunAgg where
  completed : ℕ
  skipped : ℕ
  failed : ℕ
  failedPolygons : List FailedPolygon
deriving DecidableEq

/-- One iteration of the result loop, wcs_downloader.py lines 286-306:
skipped results first, then successes, otherwise a failure record is
appended. -/
def aggregateStep (ts : String) (a : RunAgg) (p : DownloadResult × BoundsRow) : RunAgg :=
  if p.1.skipped then
    ⟨a.completed, a.skipped + 1, a.failed, a.failedPolygons⟩
  else if p.1.success then
    ⟨a.completed + 1, a.skipped, a.failed, a.failedPolygons⟩
  else
    ⟨a.completed, a.skipped, a.failed + 1, a.failedPolygons ++ [mkFailedPolygon p.1 p.2 ts]⟩

/-- Aggregation phase of process_polygons over the results in arrival
order (as_completed yields them in an arbitrary order). -/
def processResults (ts : String) (arrival : List (DownloadResult × BoundsRow)) : RunAgg :=
  arrival.foldl (aggregateStep ts) ⟨0, 0, 0, []⟩

/-- Submission phase of process_polygons, wcs_downloader.py lines 267-283:
one download_single_polygon job per bounds row, paired with its row as in
the futures dictionary. -/
def submittedJobs (rows : List BoundsRow) (env : BoundsRow → WcsEnv) (wcs_url : String)
    (sleep_duration resolution : ℚ) (max_pixels : ℤ) : List (DownloadResult × BoundsRow) :=
  rows.map (fun r =>
    ((download_single_polygon r wcs_url sleep_duration resolution max_pixels none (env r)).1, r))

/-- String form of a float cell as the csv writer renders it. -/
def pyFloatStr : PyFloat → String
  | .nan => "nan"
  | .num q => toString q

/-- Header row written by write_error_log, wcs_downloader.py lines 204-206. -/
def csvHeaderRow : List String :=
  ["index", "minx", "miny", "maxx", "maxy", "error_type", "error_message", "timestamp"]

/-- Data row written by write_error_log, wcs_downloader.py lines 207-210. -/
def failedPolygonCsvRow (fp : FailedPolygon) : List String :=
  [toString fp.index, pyFloatStr fp.minx, pyFloatStr fp.miny, pyFloatStr fp.maxx,
    pyFloatStr fp.maxy, fp.error_type, fp.error_message, fp.timestamp]

/-- File open mode: "w" truncates, "a" would append. -/
inductive FileMode where
  | writeTruncate
  | append

/-- Content visible to the writer right after open(path, mode): write mode
discards any previous content, append mode keeps it. -/
def openedContent (mode : FileMode) (previous : List (List String)) : List (List String) :=
  match mode with
  | .writeTruncate => []
  | .append => previous

/-- Embedding of write_error_log, wcs_downloader.py lines 198-212: the file
is opened with mode "w" (truncating), then the header row and one row per
failure are written in list order.  The previous content of the file is the
second argument; the result is the file content after the call. -/
def write_error_log (failed : List FailedPolygon) (previous : List (List String)) :
    List (List String) :=
  openedContent .writeTruncate previous ++ csvHeaderRow :: failed.map failedPolygonCsvRow

/-- Every branch of the job pipeline reports the row's own index. -/
theorem download_index_eq (row : BoundsRow) (wcs_url : String)
    (sleep_duration resolution : ℚ) (max_pixels : ℤ)
    (conn : Option WcsConnection) (env : WcsEnv) :
    (download_single_polygon row wcs_url sleep_duration resolution max_pixels conn env).1.index
      = row.idx := by
  unfold download_single_polygon
  dsimp only
  repeat' split
  all_goals rfl

/-- C7: on every exit path of the masking stage (success, masking failure,
final-write failure), the temporary staging file is deleted before the job
returns; equivalently, the trace records the temporary file as deleted
exactly when it records it as created, so no temporary artifact survives. -/
theorem claim7_temp_deleted_iff_created (row : BoundsRow) (wcs_url : String)
    (sleep_duration resolution : ℚ) (max_pixels : ℤ)
    (conn : Option WcsConnection) (env : WcsEnv) :
    (download_single_polygon row wcs_url sleep_duration resolution max_pixels conn env).2.tempDeleted
      = (download_single_polygon row wcs_url sleep_duration resolution max_pixels conn env).2.tempCreated := by
  unfold download_single_polygon
  dsimp only
  repeat' split
  all_goals rfl

/-- C9: the thread-local connection cache ignores the URL argument after the
first call on a given thread: calling first with u1 and then with u2 returns
exactly the session constructed for u1, whose URL is u1. -/
theorem claim9_second_call_returns_first_session (u1 u2 : String) :
    (get_wcs_connection (get_wcs_connection none u1).2 u2).1 = (get_wcs_connection none u1).1
    ∧ (get_wcs_connection (get_wcs_connection none u1).2 u2).1.url = u1 := ⟨rfl, rfl⟩

/-- C10: write_error_log opens the log in truncating write mode, so the
resulting file content is exactly the header row followed by one row per
failure of this run in aggregation order, independent of whatever a previous
run left in the file. -/
theorem claim10_error_log_truncates (failed : List FailedPolygon)
    (previous : List (List String)) :
    write_error_log failed previous = csvHeaderRow :: failed.map failedPolygonCsvRow
    ∧ write_error_log failed previous = write_error_log failed []
    ∧ (write_error_log failed previous).length = failed.length + 1 := by
  refine ⟨rfl, rfl, ?_⟩
  simp [write_error_log, openedContent]

/-- Folding the aggregation step adds exactly one to exactly one of the
three counters per result, so the counter total grows by the list length. -/
theorem foldl_aggregateStep_counts (ts : String)
    (l : List (DownloadResult × BoundsRow)) (a : RunAgg) :
    (l.foldl (aggregateStep ts) a).completed + (l.foldl (aggregateStep ts) a).skipped +
        (l.foldl (aggregateStep ts) a).failed =
      a.completed + a.skipped + a.failed + l.length := by
  induction l generalizing a with
  | nil => simp
  | cons p rest ih =>
    simp only [List.foldl_cons, List.length_cons]
    rw [ih]
    unfold aggregateStep
    split
    · dsimp only
      omega
    · split
      · dsimp only
        omega
      · dsimp only
        omega

/-- C1: for every polygon set processed by process_polygons, whatever order
the results arrive in, completed + skipped + failed equals the number of
polygons, the multiset of indices of the terminal results is exactly the
multiset of input indices (no index lost or duplicated, each result counted
under exactly one category), and distinct input indices give distinct result
indices. -/
theorem claim1_counts_conserved (rows : List BoundsRow) (env : BoundsRow → WcsEnv)
    (wcs_url : String) (sleep_duration resolution : ℚ) (max_pixels : ℤ) (ts : String)
    (arrival : List (DownloadResult × BoundsRow))
    (hperm : arrival.Perm (submittedJobs rows env wcs_url sleep_duration resolution max_pixels)) :
    (processResults ts arrival).completed + (processResults ts arrival).skipped +
        (processResults ts arrival).failed = rows.length
    ∧ (arrival.map (fun p => p.1.index)).Perm (rows.map (fun r => r.idx))
    ∧ ((rows.map (fun r => r.idx)).Nodup → (arrival.map (fun p => p.1.index)).Nodup) := by
  have hjobs : (submittedJobs rows env wcs_url sleep_duration resolution max_pixels).map
      (fun p => p.1.index) = rows.map (fun r => r.idx) := by
    unfold submittedJobs
    rw [List.map_map]
    refine List.map_congr_left fun r hr => ?_
    exact download_index_eq r wcs_url sleep_duration resolution max_pixels none (env r)
  have hmap : (arrival.map (fun p => p.1.index)).Perm (rows.map (fun r => r.idx)) := by
    have := hperm.map (fun p => p.1.index)
    rwa [hjobs] at this
  refine ⟨?_, hmap, fun hn => (hmap.symm.nodup_iff).mp hn⟩
  have hc := foldl_aggregateStep_counts ts arrival ⟨0, 0, 0, []⟩
  have hlen : arrival.length = rows.length := by
    rw [hperm.length_eq]
    unfold submittedJobs
    exact List.length_map _ _
  unfold processResults
  dsimp only at hc
  omega

/-- Witness for C1: a two-polygon run (one skipped, one failed on NaN
bounds) received in reversed arrival order yields counters summing to 2. -/
theorem claim1_counts_conserved_witness :
    (processResults ("t") ((submittedJobs
          [⟨0, PyFloat.num 0, PyFloat.num 0, PyFloat.num 1, PyFloat.num 1⟩,
            ⟨1, PyFloat.nan, PyFloat.num 0, PyFloat.num 1, PyFloat.num 1⟩]
          (fun r => ⟨r.idx = 0, none, [], none, none⟩) ("u") 0 1 10000).reverse)).completed +
      (processResults ("t") ((submittedJobs
          [⟨0, PyFloat.num 0, PyFloat.num 0, PyFloat.num 1, PyFloat.num 1⟩,
            ⟨1, PyFloat.nan, PyFloat.num 0, PyFloat.num 1, PyFloat.num 1⟩]
          (fun r => ⟨r.idx = 0, none, [], none, none⟩) ("u") 0 1 10000).reverse)).skipped +
      (processResults ("t") ((submittedJobs
          [⟨0, PyFloat.num 0, PyFloat.num 0, PyFloat.num 1, PyFloat.num 1⟩,
            ⟨1, PyFloat.nan, PyFloat.num 0, PyFloat.num 1, PyFloat.num 1⟩]
          (fun r => ⟨r.idx = 0, none, [], none, none⟩) ("u") 0 1 10000).reverse)).failed = 2 :=
  (claim1_counts_conserved
    [⟨0, PyFloat.num 0, PyFloat.num 0, PyFloat.num 1, PyFloat.num 1⟩,
      ⟨1, PyFloat.nan, PyFloat.num 0, PyFloat.num 1, PyFloat.num 1⟩]
    (fun r => ⟨r.idx = 0, none, [], none, none⟩) ("u") 0 1 10000 ("t") _
    (List.reverse_perm _)).1

/-- C2: if the deterministic output file for the index already exists, the
job returns a Skipped result and issues zero coverage requests; on a true
Success exactly one output file (the deterministic one) is created; on a
Skipped or Failed outcome no output file is created; and no job writes the
output file when it already exists, so no existing output is overwritten. -/
theorem claim2_skip_resume_frame (row : BoundsRow) (wcs_url : String)
    (sleep_duration resolution : ℚ) (max_pixels : ℤ)
    (conn : Option WcsConnection) (env : WcsEnv) (r : DownloadResult) (t : JobTrace)
    (h : download_single_polygon row wcs_url sleep_duration resolution max_pixels conn env = (r, t)) :
    (env.outputExists = true →
      r.skipped = true ∧ r.success = true ∧ t.networkCalls = 0 ∧ t.created = [])
    ∧ (r.success = true ∧ r.skipped = false → t.created = [outputFileName resolution row.idx])
    ∧ (r.skipped = true ∨ r.success = false → t.created = []) := by
  unfold download_single_polygon at h
  dsimp only at h
  repeat' split at h
  all_goals (injection h with h1 h2; subst h1; subst h2; simp_all)

/-- Witness for C2: with the output already present the job at index 5 is
skipped, makes no coverage request, and creates no file. -/
theorem claim2_skip_resume_frame_witness :
    (download_single_polygon (⟨5, PyFloat.num 0, PyFloat.num 0, PyFloat.num 1, PyFloat.num 1⟩ : BoundsRow)
        ("u") 0 1 100 none ⟨true, none, [], none, none⟩).1.skipped = true
    ∧ (download_single_polygon (⟨5, PyFloat.num 0, PyFloat.num 0, PyFloat.num 1, PyFloat.num 1⟩ : BoundsRow)
        ("u") 0 1 100 none ⟨true, none, [], none, none⟩).2.networkCalls = 0
    ∧ (download_single_polygon (⟨5, PyFloat.num 0, PyFloat.num 0, PyFloat.num 1, PyFloat.num 1⟩ : BoundsRow)
        ("u") 0 1 100 none ⟨true, none, [], none, none⟩).2.created = [] := by
  have h := claim2_skip_resume_frame
    (⟨5, PyFloat.num 0, PyFloat.num 0, PyFloat.num 1, PyFloat.num 1⟩ : BoundsRow)
    ("u") 0 1 100 none ⟨true, none, [], none, none⟩ _ _ rfl
  exact ⟨(h.1 rfl).1, (h.1 rfl).2.2.1, (h.1 rfl).2.2.2⟩

/-- Truncation toward zero and floor agree once clamped below by one. -/
theorem max_one_pyTrunc_eq_floor (q : ℚ) : max 1 (pyTrunc q) = max 1 ⌊q⌋ := by
  unfold pyTrunc
  split
  · rename_i hq
    have h1 : ⌊q⌋ ≤ 0 := Int.floor_nonpos hq.le
    have h2 : 0 ≤ ⌊-q⌋ := Int.floor_nonneg.mpr (by linarith)
    omega
  · rfl

/-- C4: for every bounding box with non-NaN coordinates and every positive
resolution, the planned pixel dimensions equal
max(1, floor((maxx - minx) / resolution)) and
max(1, floor((maxy - miny) / resolution)): Python int() truncates toward
zero rather than flooring, but the clamp to at least one erases the
difference. -/
theorem claim4_planner_formula (minx miny maxx maxy resolution : ℚ)
    (_hres : 0 < resolution) :
    plannedWidth minx maxx resolution = max 1 ⌊(maxx - minx) / resolution⌋
    ∧ plannedHeight miny maxy resolution = max 1 ⌊(maxy - miny) / resolution⌋ :=
  ⟨max_one_pyTrunc_eq_floor _, max_one_pyTrunc_eq_floor _⟩

/-- Witness for C4: a 10 x 7 ground-unit box at resolution 2 plans 5 x 3
pixels, matching the floor formula. -/
theorem claim4_planner_formula_witness :
    (0 : ℚ) < 2
    ∧ (plannedWidth 0 10 2 = max 1 ⌊((10 : ℚ) - 0) / 2⌋
        ∧ plannedHeight 0 7 2 = max 1 ⌊((7 : ℚ) - 0) / 2⌋) :=
  ⟨by norm_num, claim4_planner_formula 0 0 10 7 2 (by norm_num)⟩

/-- C3 counterexample: for a NaN bounding box at index 7 the failure record
written to failed_polygons.csv carries error_type "ValueError" (the Python
exception class name recorded by the broad except clause), which is not the
string "InvalidGeometry" the claim asserts. -/
theorem claim3_counterexample :
    (mkFailedPolygon
        (download_single_polygon
          (⟨7, PyFloat.nan, PyFloat.num 0, PyFloat.num 1, PyFloat.num 1⟩ : BoundsRow)
          ("u") 0 1 10000 none ⟨false, none, [], none, none⟩).1
        (⟨7, PyFloat.nan, PyFloat.num 0, PyFloat.num 1, PyFloat.num 1⟩ : BoundsRow)
        ("ts0")).error_type = "ValueError"
    ∧ ¬((mkFailedPolygon
        (download_single_polygon
          (⟨7, PyFloat.nan, PyFloat.num 0, PyFloat.num 1, PyFloat.num 1⟩ : BoundsRow)
          ("u") 0 1 10000 none ⟨false, none, [], none, none⟩).1
        (⟨7, PyFloat.nan, PyFloat.num 0, PyFloat.num 1, PyFloat.num 1⟩ : BoundsRow)
        ("ts0")).error_type = "InvalidGeometry") := by
  constructor
  · rfl
  · decide

/-- C3 amended: a bounding box containing a NaN coordinate (with no output
file present) fails before any coverage request is issued, and the row
recorded for failed_polygons.csv carries error_type "ValueError" — the
exception class name of the guard's ValueError — with the invalid-geometry
message, rather than the label InvalidGeometry. -/
theorem claim3_nan_bounds_amended (row : BoundsRow) (wcs_url : String)
    (sleep_duration resolution : ℚ) (max_pixels : ℤ)
    (conn : Option WcsConnection) (env : WcsEnv) (ts : String)
    (prev : List (List String)) (r : DownloadResult) (t : JobTrace)
    (h : download_single_polygon row wcs_url sleep_duration resolution max_pixels conn env = (r, t))
    (hex : env.outputExists = false)
    (hnan : (row.minx.isnan || row.miny.isnan || row.maxx.isnan || row.maxy.isnan) = true) :
    r.success = false ∧ r.skipped = false
    ∧ r.error_type = some ("ValueError")
    ∧ r.error_message = some (invalidGeometryMsg row.idx)
    ∧ t.networkCalls = 0
    ∧ (mkFailedPolygon r row ts).error_type = "ValueError"
    ∧ write_error_log [mkFailedPolygon r row ts] prev
        = [csvHeaderRow, failedPolygonCsvRow (mkFailedPolygon r row ts)] := by
  unfold download_single_polygon at h
  dsimp only at h
  simp only [hex, hnan, Bool.false_eq_true, if_false, if_true] at h
  injection h with h1 h2
  subst h1
  subst h2
  refine ⟨rfl, rfl, rfl, rfl, rfl, ?_, rfl⟩
  unfold mkFailedPolygon pyOr
  dsimp only
  rw [if_neg (by decide)]

/-- Witness for the amended C3: index 7 with minx NaN fails with zero
coverage requests and error_type ValueError in the failure record. -/
theorem claim3_nan_bounds_amended_witness :
    (download_single_polygon
        (⟨7, PyFloat.nan, PyFloat.num 0, PyFloat.num 1, PyFloat.num 1⟩ : BoundsRow)
        ("u") 0 1 10000 none ⟨false, none, [], none, none⟩).2.networkCalls = 0
    ∧ (mkFailedPolygon
        (download_single_polygon
          (⟨7, PyFloat.nan, PyFloat.num 0, PyFloat.num 1, PyFloat.num 1⟩ : BoundsRow)
          ("u") 0 1 10000 none ⟨false, none, [], none, none⟩).1
        (⟨7, PyFloat.nan, PyFloat.num 0, PyFloat.num 1, PyFloat.num 1⟩ : BoundsRow)
        ("t1")).error_type = "ValueError" := by
  have h := claim3_nan_bounds_amended
    (⟨7, PyFloat.nan, PyFloat.num 0, PyFloat.num 1, PyFloat.num 1⟩ : BoundsRow)
    ("u") 0 1 10000 none ⟨false, none, [], none, none⟩ ("t1") [] _ _ rfl rfl rfl
  exact ⟨h.2.2.2.2.1, h.2.2.2.2.2.1⟩

/-- C5: whenever the planned width or height exceeds max_pixels, the job
fails before the coverage request (zero network calls, nothing downloaded or
written), with a ValueError whose message renders the computed dimensions
and the configured bound. -/
theorem claim5_request_too_large (row : BoundsRow) (wcs_url : String)
    (sleep_duration resolution : ℚ) (max_pixels : ℤ)
    (conn : Option WcsConnection) (env : WcsEnv) (r : DownloadResult) (t : JobTrace)
    (h : download_single_polygon row wcs_url sleep_duration resolution max_pixels conn env = (r, t))
    (hex : env.outputExists = false)
    (hnan : (row.minx.isnan || row.miny.isnan || row.maxx.isnan || row.maxy.isnan) = false)
    (hbig : max_pixels < plannedWidth row.minx.toRat row.maxx.toRat resolution
        ∨ max_pixels < plannedHeight row.miny.toRat row.maxy.toRat resolution) :
    r.success = false
    ∧ r.error_type = some ("ValueError")
    ∧ r.error_message = some (tooLargeMsg
        (plannedWidth row.minx.toRat row.maxx.toRat resolution)
        (plannedHeight row.miny.toRat row.maxy.toRat resolution) max_pixels)
    ∧ t.networkCalls = 0 ∧ t.created = [] ∧ t.maskingAttempted = false := by
  unfold download_single_polygon at h
  dsimp only at h
  simp only [hex, hnan, Bool.false_eq_true, if_false, if_pos hbig] at h
  injection h with h1 h2
  subst h1
  subst h2
  exact ⟨rfl, rfl, rfl, rfl, rfl, rfl⟩

/-- Witness for C5: resolution 1, max_pixels 100, and a box 1000 ground
units wide fails reporting computed dimensions 1000 x 10 against the bound
100, with zero coverage requests. -/
theorem claim5_request_too_large_witness :
    (download_single_polygon
        (⟨3, PyFloat.num 0, PyFloat.num 0, PyFloat.num 1000, PyFloat.num 10⟩ : BoundsRow)
        ("u") 0 1 100 none ⟨false, none, [], none, none⟩).1.error_message
      = some (tooLargeMsg 1000 10 100)
    ∧ (download_single_polygon
        (⟨3, PyFloat.num 0, PyFloat.num 0, PyFloat.num 1000, PyFloat.num 10⟩ : BoundsRow)
        ("u") 0 1 100 none ⟨false, none, [], none, none⟩).2.networkCalls = 0 := by
  have h := claim5_request_too_large
    (⟨3, PyFloat.num 0, PyFloat.num 0, PyFloat.num 1000, PyFloat.num 10⟩ : BoundsRow)
    ("u") 0 1 100 none ⟨false, none, [], none, none⟩
    (download_single_polygon
      (⟨3, PyFloat.num 0, PyFloat.num 0, PyFloat.num 1000, PyFloat.num 10⟩ : BoundsRow)
      ("u") 0 1 100 none ⟨false, none, [], none, none⟩).1
    (download_single_polygon
      (⟨3, PyFloat.num 0, PyFloat.num 0, PyFloat.num 1000, PyFloat.num 10⟩ : BoundsRow)
      ("u") 0 1 100 none ⟨false, none, [], none, none⟩).2
    rfl rfl rfl
    (Or.inl (by norm_num [plannedWidth, pyTrunc, PyFloat.toRat]))
  refine ⟨?_, h.2.2.2.1⟩
  have hm := h.2.2.1
  simp only [PyFloat.toRat] at hm
  have hw : plannedWidth 0 1000 1 = 1000 := by norm_num [plannedWidth, pyTrunc]
  have hh : plannedHeight 0 10 1 = 10 := by norm_num [plannedHeight, pyTrunc]
  rw [hw, hh] at hm
  exact hm

/-- C6: a response body that begins with the markup-opening byte is
classified as a service error: the job fails with a ValueError whose message
is the first 500 bytes of the body decoded permissively; the masking stage
is never reached, no temporary file is staged, and no output is written. -/
theorem claim6_service_error_detected (row : BoundsRow) (wcs_url : String)
    (sleep_duration resolution : ℚ) (max_pixels : ℤ)
    (conn : Option WcsConnection) (env : WcsEnv) (r : DownloadResult) (t : JobTrace)
    (h : download_single_polygon row wcs_url sleep_duration resolution max_pixels conn env = (r, t))
    (hex : env.outputExists = false)
    (hnan : (row.minx.isnan || row.miny.isnan || row.maxx.isnan || row.maxy.isnan) = false)
    (hfit : ¬(max_pixels < plannedWidth row.minx.toRat row.maxx.toRat resolution
        ∨ max_pixels < plannedHeight row.miny.toRat row.maxy.toRat resolution))
    (htr : env.transport = none)
    (hbody : env.body.head? = some 60) :
    r.success = false
    ∧ r.error_type = some ("ValueError")
    ∧ r.error_message = some (serviceErrorMsg (env.body.take 500))
    ∧ t.maskingAttempted = false
    ∧ t.tempCreated = false
    ∧ t.created = [] := by
  obtain ⟨tail, hb⟩ : ∃ tail, env.body = 60 :: tail := by
    cases hcb : env.body with
    | nil => rw [hcb] at hbody; exact absurd hbody (by simp)
    | cons x xs =>
      rw [hcb] at hbody
      simp only [List.head?_cons, Option.some.injEq] at hbody
      exact ⟨xs, by rw [hbody]⟩
  unfold download_single_polygon at h
  dsimp only at h
  rw [if_neg hfit] at h
  simp only [hex, hnan, htr, hb, Bool.false_eq_true, if_false, List.isPrefixOf,
    beq_self_eq_true, Bool.true_and, List.isPrefixOf_nil_left, Bool.true_or, if_true] at h
  injection h with h1 h2
  subst h1
  subst h2
  refine ⟨rfl, rfl, ?_, rfl, rfl, rfl⟩
  rw [hb]

/-- Witness for C6: a body starting with the five ASCII bytes of the text
in quotes below fails as a service error whose message carries that text
decoded, with no masking attempt and no file created. -/
theorem claim6_service_error_detected_witness :
    (download_single_polygon
        (⟨2, PyFloat.num 0, PyFloat.num 0, PyFloat.num 10, PyFloat.num 10⟩ : BoundsRow)
        ("u") 0 1 100 none ⟨false, none, [60, 63, 120, 109, 108], none, none⟩).1.error_message
      = some ("WCS returned error response: <?xml")
    ∧ (download_single_polygon
        (⟨2, PyFloat.num 0, PyFloat.num 0, PyFloat.num 10, PyFloat.num 10⟩ : BoundsRow)
        ("u") 0 1 100 none ⟨false, none, [60, 63, 120, 109, 108], none, none⟩).2.maskingAttempted
      = false
    ∧ (download_single_polygon
        (⟨2, PyFloat.num 0, PyFloat.num 0, PyFloat.num 10, PyFloat.num 10⟩ : BoundsRow)
        ("u") 0 1 100 none ⟨false, none, [60, 63, 120, 109, 108], none, none⟩).2.created = [] := by
  have h := claim6_service_error_detected
    (⟨2, PyFloat.num 0, PyFloat.num 0, PyFloat.num 10, PyFloat.num 10⟩ : BoundsRow)
    ("u") 0 1 100 none ⟨false, none, [60, 63, 120, 109, 108], none, none⟩
    (download_single_polygon
      (⟨2, PyFloat.num 0, PyFloat.num 0, PyFloat.num 10, PyFloat.num 10⟩ : BoundsRow)
      ("u") 0 1 100 none ⟨false, none, [60, 63, 120, 109, 108], none, none⟩).1
    (download_single_polygon
      (⟨2, PyFloat.num 0, PyFloat.num 0, PyFloat.num 10, PyFloat.num 10⟩ : BoundsRow)
      ("u") 0 1 100 none ⟨false, none, [60, 63, 120, 109, 108], none, none⟩).2
    rfl rfl rfl
    (by
      rw [not_or]
      constructor
      · norm_num [plannedWidth, pyTrunc, PyFloat.toRat]
      · norm_num [plannedHeight, pyTrunc, PyFloat.toRat])
    rfl rfl
  refine ⟨?_, h.2.2.2.1, h.2.2.2.2.2⟩
  have hm := h.2.2.1
  rw [hm]
  rfl

/-- C8: the notebook variant does not duplicate the CLI planner at
resolution 1: with minx = 1/2 and maxx = 2 the notebook computes the
non-integer width max(1, int(maxx) - minx) = 3/2, while the CLI planner
computes max(1, int(maxx - minx)) = 1, so the two widths differ.  The
notebook line is a parenthesis slip: int() is applied to maxx alone. -/
theorem claim8_notebook_width_differs :
    notebookWidth (1 / 2 : ℚ) 2 = 3 / 2
    ∧ plannedWidth (1 / 2 : ℚ) 2 1 = 1
    ∧ ¬(notebookWidth (1 / 2 : ℚ) 2 = ((plannedWidth (1 / 2 : ℚ) 2 1 : ℤ) : ℚ)) := by
  have h1 : notebookWidth (1 / 2 : ℚ) 2 = 3 / 2 := by
    norm_num [notebookWidth, pyTrunc]
  have h2 : plannedWidth (1 / 2 : ℚ) 2 1 = 1 := by
    norm_num [plannedWidth, pyTrunc]
  refine ⟨h1, h2, ?_⟩
  rw [h1, h2]
  norm_num
